import Mathlib

/-!
Verification of the lunar_capital browser streaming-dashboard client.

This file gives a shallow embedding, in Lean 4, of the two streaming-client
scripts of the repository:

* `copilot/sockets/dash_socket.js` (in `src/unnamed/part_000`, second part),
  together with the legacy inline dashboard template script
  (first part of `src/unnamed/part_000`), and
* `src/static/copilot/js/sockets/mi_socket.js`
  (class `MultiAssetMarketIntelligence`).

Pure computations (URL construction, the exponential backoff formula, the
HTML template builders) are embedded as Lean functions.  The socket
lifecycle with its reconnect timers is embedded as an explicit event-step
function over a state record; the event guards encode the guarantees of the
single-threaded browser event model (a given socket object fires `open`
before any `close`, fires `close` at most once, and a timer callback runs
only for a timer that was scheduled and neither fired nor was cancelled).
JavaScript numbers are modelled as exact rationals; `Number.prototype.toFixed`
is modelled by exact rational rounding (the nonnegative half-up tie rule of
the ECMA algorithm), which agrees with the float computation on every value
exercised here.  DOM text mutation is modelled by string-valued fields of a
widget-state record; code that can throw is modelled with `Except`, and a
thrown exception carries the state at the throw point because DOM mutations
already performed are not rolled back by a JavaScript `catch`.
-/

/-! ## Backoff policy (dash_socket.js lines 54-55 and 116-117)

`const RECONNECT_DELAY = 5000; const MAX_RECONNECT_DELAY = 60000;`
`const exponentialBackoff = (attempts) => Math.min(RECONNECT_DELAY * 2 ** attempts, MAX_RECONNECT_DELAY);`
For every attempt count the float computation `Math.min(5000 * 2 ** a, 60000)`
yields the same value as the exact natural-number formula below (once the
product exceeds 60000 the minimum is 60000 regardless of float rounding, and
below that point the product is exact), so the embedding uses `Nat`. -/

def RECONNECT_DELAY : Nat := 5000

def MAX_RECONNECT_DELAY : Nat := 60000

def exponentialBackoff (attempts : Nat) : Nat :=
  min (RECONNECT_DELAY * 2 ^ attempts) MAX_RECONNECT_DELAY

/-! ## Dash-socket connection manager (dash_socket.js lines 52-166)

State of the `DOMContentLoaded` closure: `reconnectState = \x7b attempts, timeout \x7d`
plus the current `dashSocket`.  Pending `setTimeout` timers are modelled as a
list of `(id, delay)` pairs; `reconnectState.timeout` stores the id of the
most recently scheduled reconnect timer.  The `socketClosed` flag records
whether the current socket object has already fired its `close` event. -/

structure DashState where
  attempts : Nat
  timeoutHandle : Option Nat
  pending : List (Nat × Nat)
  nextId : Nat
  socketClosed : Bool
deriving DecidableEq

/-- Model of `clearTimeout(h)`: removes the timer with id `h` from the pending
set if it is still pending; a no-op on an id that already fired or was
cleared, and on an absent handle. -/
def clearTimeoutModel (pending : List (Nat × Nat)) : Option Nat → List (Nat × Nat)
  | none => pending
  | some h => pending.filter (fun td => td.1 != h)

/-- Function `connectDashSocket` (lines 119-154): first `clearTimeout(reconnectState.timeout)`,
then `dashSocket = new WebSocket(wsUrl)` with fresh handlers, so the new
socket has not yet fired `close`.  The stale handle value itself is kept, as
in the source. -/
def connectDashSocket (s : DashState) : DashState :=
  { s with pending := clearTimeoutModel s.pending s.timeoutHandle, socketClosed := false }

/-- Events delivered to the dash-socket closure by the browser event loop. -/
inductive DashEvent where
  | opened
  | closed
  | fire (id : Nat)
deriving DecidableEq

/-- One event step of the dash-socket client.  `none` means the event cannot
occur at this state under the browser event model (an `open` or `close` on a
socket that already fired `close`, or a callback of a timer that is not
pending).

* `opened` (`dashSocket.onopen`, lines 126-129): `reconnectState.attempts = 0`.
* `closed` (`dashSocket.onclose`, lines 143-148): `reconnectState.attempts++`,
  then `delay = exponentialBackoff(reconnectState.attempts)` on the already
  incremented count, then `reconnectState.timeout = setTimeout(connectDashSocket, delay)`.
* `fire id`: the scheduled timer `id` expires (leaving the pending set) and
  its callback `connectDashSocket` runs. -/
def stepDash (s : DashState) : DashEvent → Option DashState
  | .opened => if s.socketClosed then none else some { s with attempts := 0 }
  | .closed =>
      if s.socketClosed then none else
        let att := s.attempts + 1
        let d := exponentialBackoff att
        some { s with
                socketClosed := true
                attempts := att
                pending := (s.nextId, d) :: s.pending
                timeoutHandle := some s.nextId
                nextId := s.nextId + 1 }
  | .fire id =>
      if s.pending.any (fun td => td.1 == id) then
        some (connectDashSocket { s with pending := s.pending.filter (fun td => td.1 != id) })
      else none

/-- Startup (lines 156-165): a single initial `connectDashSocket()` from the
pristine closure state. -/
def dashInit : DashState :=
  connectDashSocket
    { attempts := 0, timeoutHandle := none, pending := [], nextId := 0, socketClosed := false }

def runFrom (s : DashState) : List DashEvent → Option DashState
  | [] => some s
  | e :: rest =>
      match stepDash s e with
      | some s' => runFrom s' rest
      | none => none

/-- Run a list of events against the dash-socket client from its initial
state; `none` if some event is impossible where it appears. -/
def dashRun (evs : List DashEvent) : Option DashState :=
  runFrom dashInit evs

/-! ## mi_socket.js reconnect loop (handleClose, lines 138-146, and reconnect, lines 153-163)

`handleClose` schedules `setTimeout(() => this.reconnect(), 5000)` without
recording or clearing any handle; `reconnect()` builds a fresh socket and
re-attaches the handlers.  Same event guards as above. -/

structure MiConn where
  socketClosed : Bool
  pending : List Nat
  nextId : Nat
deriving DecidableEq

def miConnStep (s : MiConn) : DashEvent → Option MiConn
  | .opened => if s.socketClosed then none else some s
  | .closed =>
      if s.socketClosed then none else
        some { socketClosed := true, pending := s.nextId :: s.pending, nextId := s.nextId + 1 }
  | .fire id =>
      if s.pending.contains id then
        some { s with pending := s.pending.filter (fun t => t != id), socketClosed := false }
      else none

def miConnInit : MiConn :=
  { socketClosed := false, pending := [], nextId := 0 }

/-- Reachability of a state from `init` by a sequence of possible events. -/
inductive Reaches {σ : Type} (step : σ → DashEvent → Option σ) (init : σ) : σ → Prop where
  | refl : Reaches step init init
  | tail : ∀ {s e s'}, Reaches step init s → step s e = some s' → Reaches step init s'

/-- Invariant of the dash-socket client: while the current socket has not
fired `close` there is no pending reconnect timer; there is never more than
one pending reconnect timer; and `reconnectState.timeout` holds the id of the
pending timer if one exists. -/
def DashInv (s : DashState) : Prop :=
  (s.socketClosed = false → s.pending = [])
  ∧ s.pending.length ≤ 1
  ∧ ∀ td ∈ s.pending, s.timeoutHandle = some td.1

/-- Invariant of the mi-socket reconnect loop: no pending reconnect timer
while the current socket is open, and never more than one pending timer. -/
def MiConnInv (t : MiConn) : Prop :=
  (t.socketClosed = false → t.pending = []) ∧ t.pending.length ≤ 1

/-- The dash-socket state right after the first `close` event from the
initial state: one pending reconnect timer, id 0, delay
`exponentialBackoff 1 = 10000`. -/
def dashAfterFirstClose : DashState :=
  { attempts := 1, timeoutHandle := some 0, pending := [(0, 10000)],
    nextId := 1, socketClosed := true }

/-! ## Page URLs (dash_socket.js lines 53 and 123; mi_socket.js lines 4-6 and 156-158) -/

/-- Scheme selection of the dash socket:
`const wsProtocol = window.location.protocol === "https:" ? "wss" : "ws";`. -/
def wsProtocol (pageProtocol : String) : String :=
  if pageProtocol = "https:" then "wss" else "ws"

/-- Dashboard stream URL: `wsUrl` built from `wsProtocol`, `location.host`
and the fixed path. -/
def dashSocketUrl (pageProtocol host : String) : String :=
  wsProtocol pageProtocol ++ "://" ++ host ++ "/ws/dashboard/"

/-- Market-intelligence stream URL, from the `MultiAssetMarketIntelligence`
constructor and `reconnect()`: the scheme is the hardcoded literal `ws`, the
page protocol plays no role. -/
def miSocketUrl (_pageProtocol host : String) : String :=
  "ws://" ++ host ++ "/ws/market-intelligence/"

/-! ## JavaScript values

The mi_socket message handler operates on the result of `JSON.parse` by duck
typing, so the embedding uses a JS value type with the pieces of JS
semantics the handler exercises. -/

inductive JsVal where
  | undefined
  | null
  | bool (b : Bool)
  | num (q : ℚ)
  | str (s : String)
  | arr (elems : List JsVal)
  | obj (fields : List (String × JsVal))

def lookupField : List (String × JsVal) → String → Option JsVal
  | [], _ => none
  | (k, v) :: rest, key => if k = key then some v else lookupField rest key

/-- Property access `base[key]`: the `none` result models the TypeError
thrown when the base is `null` or `undefined`; otherwise the JS result (a
missing property reads as `undefined`; of the built-in properties only
`length` of arrays and strings is used by this code). -/
def JsVal.getField? : JsVal → String → Option JsVal
  | .undefined, _ => none
  | .null, _ => none
  | .obj fs, key => some ((lookupField fs key).getD .undefined)
  | .arr xs, key => some (if key = "length" then .num xs.length else .undefined)
  | .str s, key => some (if key = "length" then .num s.length else .undefined)
  | .bool _, _ => some .undefined
  | .num _, _ => some .undefined

/-- Property access on a base known not to be `null`/`undefined`. -/
def JsVal.fieldD (v : JsVal) (key : String) : JsVal :=
  (v.getField? key).getD .undefined

/-- JS truthiness. -/
def JsVal.truthy : JsVal → Bool
  | .undefined => false
  | .null => false
  | .bool b => b
  | .num q => decide (q ≠ 0)
  | .str s => decide (s ≠ "")
  | .arr _ => true
  | .obj _ => true

/-- The test `narratives.length > 0` as JS evaluates it on a non-null value:
`length` is a positive number exactly for nonempty arrays and strings; on
every other value `length` reads as `undefined`, and `undefined > 0` is
false. -/
def jsLengthPos : JsVal → Bool
  | .arr xs => decide (0 < xs.length)
  | .str s => decide (0 < s.length)
  | _ => false

/-- Semantics of `Object.entries(x)`: `none` models the TypeError on `null`
and `undefined`; objects list their own enumerable fields in insertion
order, arrays and strings their indexed elements, primitives have none. -/
def JsVal.entriesOf? : JsVal → Option (List (String × JsVal))
  | .undefined => none
  | .null => none
  | .obj fs => some fs
  | .arr xs => some (xs.enum.map fun p => (toString p.1, p.2))
  | .str s => some (s.toList.enum.map fun p => (toString p.1, JsVal.str (String.singleton p.2)))
  | .bool _ => some []
  | .num _ => some []

/-- Decimal display of a JS number in template interpolation.  Integers are
rendered exactly; the display of non-integral values is not exercised by any
claim and is approximated by exact fraction text. -/
def ratDisplay (q : ℚ) : String :=
  if q.den = 1 then toString q.num else toString q.num ++ "/" ++ toString q.den

/-- String coercion of a JS value in template interpolation.  Array and
object display are not exercised by any claim and are abbreviated. -/
def JsVal.display : JsVal → String
  | .undefined => "undefined"
  | .null => "null"
  | .bool b => if b then "true" else "false"
  | .num q => ratDisplay q
  | .str s => s
  | .arr _ => "[array]"
  | .obj _ => "[object Object]"

/-- ToNumber coercion for the values this code multiplies; `none` models
NaN.  String parsing to numbers is not exercised by any claim and strings
and containers are mapped to the NaN outcome of the generic case. -/
def toNumberOpt : JsVal → Option ℚ
  | .num q => some q
  | .null => some 0
  | .bool b => some (if b then 1 else 0)
  | _ => none

/-- Semantics of `Number.prototype.toFixed(dp)` by exact rational
arithmetic: scale the magnitude by `10 ^ dp`, round half-up (the ECMA tie
rule, which on the sign-magnitude split is half away from zero), then place
the decimal point.  The rounding `(2 * a + b) / (2 * b)` in natural-number
division is the floor of `a / b + 1 / 2`. -/
def toFixedStr (dp : Nat) (q : ℚ) : String :=
  let neg := q.num < 0
  let n : Nat := (2 * (q.num.natAbs * 10 ^ dp) + q.den) / (2 * q.den)
  let s := toString n
  if dp = 0 then (if neg then "-" else "") ++ s
  else
    let digits := s.data
    let digits2 :=
      if digits.length ≤ dp then List.replicate (dp + 1 - digits.length) '0' ++ digits else digits
    (if neg then "-" else "") ++ String.mk (digits2.take (digits2.length - dp)) ++ "." ++
      String.mk (digits2.drop (digits2.length - dp))

/-- Confidence text `(narrative.confidence * 100).toFixed(0)`. -/
def confFixed (c : JsVal) : String :=
  match toNumberOpt c with
  | some q => toFixedStr 0 (q * 100)
  | none => "NaN"

/-- Time text `new Date(v).toLocaleTimeString()`: locale-dependent platform
formatting, modelled as the display of the raw value; no claim depends on
its exact text. -/
def dateLocaleTime (v : JsVal) : String :=
  match v with
  | .undefined => "Invalid Date"
  | w => w.display

/-! ## mi_socket widget state and renderers (mi_socket.js lines 2-123) -/

inductive ContainerId where
  | forex
  | crypto
  | stocks
deriving DecidableEq

/-- Property names an object literal inherits from `Object.prototype`:
bracket lookup with one of these keys walks the prototype chain and yields
the inherited member — a function, or for `__proto__` the prototype object —
which is truthy, not `undefined`. -/
def protoKeys : List String :=
  ["constructor", "hasOwnProperty", "isPrototypeOf", "propertyIsEnumerable",
   "toLocaleString", "toString", "valueOf", "__proto__",
   "__defineGetter__", "__defineSetter__", "__lookupGetter__", "__lookupSetter__"]

/-- Display text of an inherited `Object.prototype` member in template
interpolation (the source text of the built-in function, or the prototype
object for `__proto__`).  The exact text is host-defined; what matters to
the claims is only that it is produced instead of the fallback, so the
member is identified by its key. -/
def inheritedDisplay (key : String) : String :=
  "[inherited Object.prototype " ++ key ++ "]"

/-- Result of the bracket lookup `this.assetContainers[assetClass]`
(lines 8-12): one of the three container elements for an own key (the
standard dashboard page provides all three containers), the truthy inherited
member for an `Object.prototype` key, `undefined` otherwise. -/
inductive ContainerLookup where
  | element (cid : ContainerId)
  | inherited
  | missing
deriving DecidableEq

def assetContainers (cls : String) : ContainerLookup :=
  if cls = "forex" then .element .forex
  else if cls = "crypto" then .element .crypto
  else if cls = "stocks" then .element .stocks
  else if protoKeys.contains cls then .inherited
  else .missing

/-- Result of the bracket lookup `this.assetIcons[assetClass]`
(lines 14-18), with the same prototype-chain behaviour. -/
inductive IconLookup where
  | icon (s : String)
  | inherited
  | missing
deriving DecidableEq

def assetIcons (cls : String) : IconLookup :=
  if cls = "forex" then .icon "bi-currency-exchange"
  else if cls = "crypto" then .icon "bi-currency-bitcoin"
  else if cls = "stocks" then .icon "bi-graph-up"
  else if protoKeys.contains cls then .inherited
  else .missing

/-- Interpolation of `this.assetIcons[assetClass] || 'bi-circle'`
(line 82): an inherited member is truthy and short-circuits the fallback. -/
def iconText (cls : String) : String :=
  match assetIcons cls with
  | .icon s => s
  | .inherited => inheritedDisplay cls
  | .missing => "bi-circle"

/-- Interpolation of the unguarded `this.assetIcons[assetClass]` in the
no-data template (line 110): `undefined` displays as text. -/
def noDataIconText (cls : String) : String :=
  match assetIcons cls with
  | .icon s => s
  | .inherited => inheritedDisplay cls
  | .missing => "undefined"

/-- Lookup `this.priorityClasses[p] || 'alert-secondary'` (lines 20-24 and
81) for a string key: the three own keys map to their classes; an
`Object.prototype` key yields the truthy inherited member, which
short-circuits the `||` fallback and is interpolated as a string; everything
else reads `undefined` and falls back to `alert-secondary`. -/
def priorityClassOfStr (p : String) : String :=
  if p = "high" then "alert-danger"
  else if p = "medium" then "alert-warning"
  else if p = "low" then "alert-info"
  else if protoKeys.contains p then inheritedDisplay p
  else "alert-secondary"

/-- The same lookup for an arbitrary JS value: bracket lookup coerces the
key with ToPropertyKey, the string coercion of the value. -/
def priorityClassFor (v : JsVal) : String :=
  priorityClassOfStr v.display

/-- Observable client state of `MultiAssetMarketIntelligence`: the innerHTML
of the three per-asset containers, the last-updated display, and the emitted
toast notifications `(message, severity)` in order. -/
structure MiState where
  forex : String
  crypto : String
  stocks : String
  lastUpdated : String
  toasts : List (String × String)
deriving DecidableEq

def getRegion (st : MiState) : ContainerId → String
  | .forex => st.forex
  | .crypto => st.crypto
  | .stocks => st.stocks

def setRegion (st : MiState) : ContainerId → String → MiState
  | .forex, html => { st with forex := html }
  | .crypto, html => { st with crypto := html }
  | .stocks, html => { st with stocks := html }

/-- The narrative entry template (lines 84-102) with the interpolated pieces
as arguments, written on one line; the inter-tag layout whitespace of the
template literal is not reproduced. -/
def entryTemplate (alertClass iconClass symbolText priorityText narrativeText timeText confText : String) : String :=
  "<div class=\"alert " ++ alertClass ++
  " alert-dismissible fade show mb-3\" role=\"alert\"><div class=\"d-flex align-items-center\"><div class=\"flex-grow-1\"><h6 class=\"alert-heading mb-1\"><i class=\"" ++
  iconClass ++ " me-2\"></i>" ++ symbolText ++ "<span class=\"badge bg-dark ms-2\">" ++
  priorityText ++ "</span></h6><p class=\"mb-1\">" ++ narrativeText ++
  "</p><small class=\"text-muted\">" ++ timeText ++ " • Confidence: " ++ confText ++
  "%</small></div><button type=\"button\" class=\"btn-close\" data-bs-dismiss=\"alert\"></button></div></div>"

/-- The no-data template (lines 107-114). -/
def noDataHtml (assetClass : String) : String :=
  "<div class=\"text-center py-4 text-muted\"><i class=\"" ++
  noDataIconText assetClass ++
  " display-4 d-block mb-2\"></i><p>No market intelligence available for " ++
  assetClass ++ "</p><small>Check back later for updates</small></div>"

/-- One narrative element (the `forEach` body, lines 80-105): reads the
narrative fields by duck typing; property access throws when the element is
`null` or `undefined`. -/
def narrativeHtml (assetClass : String) (n : JsVal) : Except String String :=
  match n.getField? "priority" with
  | none => .error "TypeError"
  | some p =>
      .ok (entryTemplate (priorityClassFor p) (iconText assetClass)
        (n.fieldD "symbol").display p.display (n.fieldD "narrative").display
        (dateLocaleTime (n.fieldD "timestamp")) (confFixed (n.fieldD "confidence")))

/-- Concatenation of rendered chunks in order. -/
def concatAll : List String → String
  | [] => ""
  | s :: rest => s ++ concatAll rest

/-- The `forEach` loop appending each narrative element to the container
(line 104).  A thrown TypeError aborts the loop but keeps the mutations
already performed, so an error carries the state at the throw point. -/
def renderNarratives (cid : ContainerId) (assetClass : String) :
    MiState → List JsVal → Except (String × MiState) MiState
  | st, [] => .ok st
  | st, n :: rest =>
      match narrativeHtml assetClass n with
      | .error e => .error (e, st)
      | .ok html =>
          renderNarratives cid assetClass (setRegion st cid (getRegion st cid ++ html)) rest

/-- The `forEach` loop when the container lookup hit an inherited
`Object.prototype` member instead of a DOM element: `innerHTML` assignments
create an ordinary property on that (extensible) object, so no dashboard
region changes; the loop body still evaluates each entry and can still throw
on a `null`/`undefined` element. -/
def renderInherited (st : MiState) (assetClass : String) :
    List JsVal → Except (String × MiState) MiState
  | [] => .ok st
  | n :: rest =>
      match narrativeHtml assetClass n with
      | .error e => .error (e, st)
      | .ok _ => renderInherited st assetClass rest

/-- Method `updateAssetDashboard` (lines 71-116): container lookup with
early return on `undefined`, clear the container, then either render the
narrative list or the no-data state; `narratives.forEach` throws when
`narratives` is a truthy non-array with positive `length` (a string).  A key
that hits an inherited `Object.prototype` member passes the `!container`
guard, but its `innerHTML` writes land on that object rather than on any
dashboard region. -/
def updateAssetDashboard (st : MiState) (assetClass : String) (narratives : JsVal) :
    Except (String × MiState) MiState :=
  match assetContainers assetClass with
  | .missing => .ok st
  | .inherited =>
      if narratives.truthy && jsLengthPos narratives then
        match narratives with
        | .arr xs => renderInherited st assetClass xs
        | _ => .error ("TypeError", st)
      else .ok st
  | .element cid =>
      let st1 := setRegion st cid ""
      if narratives.truthy && jsLengthPos narratives then
        match narratives with
        | .arr xs => renderNarratives cid assetClass st1 xs
        | _ => .error ("TypeError", st1)
      else .ok (setRegion st1 cid (noDataHtml assetClass))

/-- Method `updateAllAssetDashboards` (lines 64-69) over the entry list of
the payload. -/
def updateEntries : MiState → List (String × JsVal) → Except (String × MiState) MiState
  | st, [] => .ok st
  | st, (cls, ns) :: rest =>
      match updateAssetDashboard st cls ns with
      | .error e => .error e
      | .ok st' => updateEntries st' rest

def updateAllAssetDashboards (st : MiState) (payload : JsVal) :
    Except (String × MiState) MiState :=
  match payload.entriesOf? with
  | none => .error ("TypeError", st)
  | some es => updateEntries st es

/-- Method `updateLastUpdatedTime` (lines 118-123). -/
def updateLastUpdatedTime (st : MiState) (ts : JsVal) : MiState :=
  { st with lastUpdated := dateLocaleTime ts }

/-- Method `showToast` (lines 165-169). -/
def showToast (st : MiState) (message severity : String) : MiState :=
  { st with toasts := st.toasts ++ [(message, severity)] }

/-- Body of `handleMessage` inside the `try` (lines 40-58): switch on
`data.type` with strict string comparison; reading `.type` off `null` or
`undefined` throws. -/
def handleMessageBody (data : JsVal) (st : MiState) : Except (String × MiState) MiState :=
  match data.getField? "type" with
  | none => .error ("TypeError", st)
  | some (.str s) =>
      if s = "market_intelligence" ∨ s = "immediate_update" then
        match updateAllAssetDashboards st (data.fieldD "data") with
        | .error e => .error e
        | .ok st1 => .ok (updateLastUpdatedTime st1 (data.fieldD "timestamp"))
      else if s = "preferences_updated" then
        .ok (showToast st "Preferences updated successfully" "success")
      else if s = "error" then
        .ok (showToast st (data.fieldD "message").display "danger")
      else .ok st
  | some _ => .ok st

/-- Method `handleMessage` (lines 40-62): the `catch` only logs, so a thrown
error is swallowed and the mutations performed before the throw remain. -/
def handleMessage (data : JsVal) (st : MiState) : MiState :=
  match handleMessageBody data st with
  | .ok st' => st'
  | .error (_, st') => st'

/-- Dispatch of one raw text frame: `JSON.parse` happens inside the same
`try`, so a parse failure (the `Except.error` case of the parse result) is
caught by the same `catch` and nothing happens.  The function is total:
dispatch never throws to its caller. -/
def dispatch (parsed : Except String JsVal) (st : MiState) : MiState :=
  match parsed with
  | .error _ => st
  | .ok v => handleMessage v st

/-- Region content of a run result, looking through a thrown error at the
state current when it was thrown. -/
def regionOfResult : Except (String × MiState) MiState → ContainerId → String
  | .ok st, cid => getRegion st cid
  | .error (_, st), cid => getRegion st cid

/-! ## The Narrative record of the wire protocol and its JS encoding -/

structure Narrative where
  symbol : String
  priority : String
  narrative : String
  confidence : ℚ
  timestamp : String
deriving DecidableEq

def Narrative.toJs (n : Narrative) : JsVal :=
  .obj [("symbol", .str n.symbol), ("priority", .str n.priority),
        ("narrative", .str n.narrative), ("confidence", .num n.confidence),
        ("timestamp", .str n.timestamp)]

/-- What the renderer produces for one well-formed Narrative, phrased over
the record fields. -/
def entryOfNarrative (assetClass : String) (n : Narrative) : String :=
  entryTemplate (priorityClassOfStr n.priority) (iconText assetClass)
    n.symbol n.priority n.narrative (dateLocaleTime (.str n.timestamp))
    (toFixedStr 0 (n.confidence * 100))

/-! ## WebSocket send (platform API) and the outbound commands -/

inductive ReadyState where
  | connecting
  | opened
  | closing
  | closed
deriving DecidableEq

structure Socket where
  readyState : ReadyState
  sent : List String
deriving DecidableEq

/-- Modelled from the WHATWG WebSocket standard, the platform API the source
calls: `send(data)` throws InvalidStateError in the CONNECTING state,
transmits in OPEN, and silently discards in CLOSING or CLOSED. -/
def wsSend (s : Socket) (data : String) : Except String Socket :=
  match s.readyState with
  | .connecting => .error "InvalidStateError"
  | .opened => .ok { s with sent := s.sent ++ [data] }
  | .closing => .ok s
  | .closed => .ok s

/-- The mi client as seen by the outbound commands: its socket and its
widget/notification state (which the commands never touch). -/
structure MiClient where
  socket : Socket
  widgets : MiState
deriving DecidableEq

/-- Outbound frame of `requestImmediateUpdate`. -/
def reqUpdateMsg : String := "\x7b\"type\":\"request_update\"\x7d"

/-- Outbound frame of `updatePreferences`, with the preferences value
already serialized. -/
def setPreferencesMsg (prefs : String) : String :=
  "\x7b\"type\":\"set_preferences\",\"preferences\":" ++ prefs ++ "\x7d"

/-- Method `requestImmediateUpdate` (lines 125-129): an unguarded
`this.socket.send`. -/
def requestImmediateUpdate (c : MiClient) : Except String MiClient :=
  match wsSend c.socket reqUpdateMsg with
  | .error e => .error e
  | .ok sock => .ok { c with socket := sock }

/-- Method `updatePreferences` (lines 131-136): an unguarded
`this.socket.send`. -/
def updatePreferences (c : MiClient) (prefs : String) : Except String MiClient :=
  match wsSend c.socket (setPreferencesMsg prefs) with
  | .error e => .error e
  | .ok sock => .ok { c with socket := sock }

/-! ## Dashboard snapshot payload and widgets

Fields read by the two dashboard frame handlers: the copilot
`updateDashboard` (dash_socket.js lines 65-113) and the legacy inline
template handler (`dashboardSocket.onmessage`, first part of
`src/unnamed/part_000`, lines 8-34).  A field is `none` when absent from the
JSON payload; values are assumed well-typed per the wire protocol (strings
for the labels, numbers for the metrics). -/

structure TechnicalBreadth where
  macd_bull_cross : Int
  rsi_over_70 : Int
  pairs_evaluated : Int
deriving DecidableEq

structure DashPayload where
  market_status : Option String
  trending_up : Option ℚ
  breadth_pct : Option ℚ
  volatility_index : Option ℚ
  volatility_change : Option ℚ
  active_alerts : Option ℚ
  alerts_change : Option ℚ
  technical_breadth : Option TechnicalBreadth
  session_activity : Option String
  current_session : Option String
deriving DecidableEq

/-- The widget elements written by the copilot `updateDashboard`; all of
them exist on the standard dashboard page. -/
structure DashWidgets where
  marketStatus : String
  marketBreadth : String
  volatilityValue : String
  volatilityChange : String
  alertsValue : String
  alertsDetails : String
  sessionValue : String
  sessionDetails : String
deriving DecidableEq

/-- Interpolation of a possibly-absent string field (`undefined` displays as
the text `undefined`). -/
def jsStrOf : Option String → String
  | some s => s
  | none => "undefined"

/-- Interpolation of a possibly-absent numeric field. -/
def jsNumStrOf : Option ℚ → String
  | some q => ratDisplay q
  | none => "undefined"

/-- The comparison `x >= 0` (`undefined >= 0` is false via NaN). -/
def jsGeZero : Option ℚ → Bool
  | some q => decide (0 ≤ q)
  | none => false

/-- Interpolation of `Math.abs(x)` (`Math.abs(undefined)` is NaN). -/
def jsAbsStrOf : Option ℚ → String
  | some q => ratDisplay |q|
  | none => "NaN"

/-- Market-status block of `updateDashboard` (lines 67-71): guarded by the
truthiness of `data.market_status`. -/
def applyMarketStatus (d : DashPayload) (w : DashWidgets) : DashWidgets :=
  match d.market_status with
  | some s => if s ≠ "" then { w with marketStatus := s } else w
  | none => w

/-- Market-breadth block (lines 72-75): guarded by
`data.breadth_pct !== undefined`; the constant sibling text node is not a
separate widget. -/
def applyBreadth (d : DashPayload) (w : DashWidgets) : DashWidgets :=
  match d.breadth_pct with
  | some q =>
      { w with marketBreadth := "+" ++ toFixedStr 1 q ++ "% <i class=\"bi bi-arrow-up\"></i>" }
  | none => w

/-- Volatility-index block (lines 80-82): guarded by
`data.volatility_index !== undefined`. -/
def applyVolIndex (d : DashPayload) (w : DashWidgets) : DashWidgets :=
  match d.volatility_index with
  | some q => { w with volatilityValue := toFixedStr 2 q }
  | none => w

/-- Volatility-change block (lines 83-89): guarded by
`data.volatility_change !== undefined`. -/
def applyVolChange (d : DashPayload) (w : DashWidgets) : DashWidgets :=
  match d.volatility_change with
  | some q =>
      { w with volatilityChange :=
          (if 0 ≤ q then "+" else "") ++ toFixedStr 1 (q * 100) ++
          "% <i class=\"bi bi-arrow-" ++ (if 0 ≤ q then "up" else "down") ++ "\"></i>" }
  | none => w

/-- Actionable-signals block (lines 92-101): guarded by the truthiness of
the `data.technical_breadth` object. -/
def applyAlerts (d : DashPayload) (w : DashWidgets) : DashWidgets :=
  match d.technical_breadth with
  | some tb =>
      { w with
          alertsValue := toString (tb.macd_bull_cross + tb.rsi_over_70)
          alertsDetails :=
            "<span class=\"text-success\">" ++ toString tb.macd_bull_cross ++
            " MACD crosses</span> | <span class=\"text-danger\">" ++ toString tb.rsi_over_70 ++
            " RSI > 70</span><br><small class=\"text-muted\">Across " ++
            toString tb.pairs_evaluated ++ " pairs</small>" }
  | none => w

/-- Session block (lines 104-112): guarded by the truthiness of
`data.session_activity` only; `data.current_session` interpolates even when
absent. -/
def applySession (d : DashPayload) (w : DashWidgets) : DashWidgets :=
  match d.session_activity with
  | some s =>
      if s ≠ "" then
        { w with
            sessionValue := s
            sessionDetails :=
              "<span class=\"text-success\">" ++ jsStrOf d.current_session ++
              " <i class=\"bi bi-record-fill text-danger\"></i></span> Open" }
      else w
  | none => w

/-- Function `updateDashboard` (lines 65-113), the blocks in source order. -/
def updateDashboard (d : DashPayload) (w : DashWidgets) : DashWidgets :=
  applySession d (applyAlerts d (applyVolChange d (applyVolIndex d
    (applyBreadth d (applyMarketStatus d w)))))

/-- Dispatch of the dash socket `onmessage` (lines 131-141): `JSON.parse`
and `updateDashboard` run inside `try`, the `catch` only logs. -/
def dashDispatch (parsed : Except String DashPayload) (w : DashWidgets) : DashWidgets :=
  match parsed with
  | .error _ => w
  | .ok d => updateDashboard d w

/-- The widget elements written by the legacy inline template handler. -/
structure LegacyWidgets where
  marketStatus : String
  trendingUp : String
  volatilityIndex : String
  volatilityChange : String
  activeAlerts : String
  alertsChange : String
  sessionActivity : String
  currentSession : String
deriving DecidableEq

/-- The legacy inline `dashboardSocket.onmessage` (part_000 lines 8-34):
every widget is written unconditionally from the payload, absent fields
interpolating as `undefined` or NaN; the prior content is discarded. -/
def legacyOnMessage (d : DashPayload) (_w : LegacyWidgets) : LegacyWidgets :=
  { marketStatus := jsStrOf d.market_status
    trendingUp :=
      "<span class=\"text-success\">+" ++ jsNumStrOf d.trending_up ++
      "% <i class=\"bi bi-arrow-up\"></i></span> of instruments trending up"
    volatilityIndex := jsNumStrOf d.volatility_index
    volatilityChange :=
      "<span class=\"" ++ (if jsGeZero d.volatility_change then "text-danger" else "text-success") ++
      "\">" ++ jsAbsStrOf d.volatility_change ++ "% <i class=\"bi " ++
      (if jsGeZero d.volatility_change then "bi-arrow-up" else "bi-arrow-down") ++
      "\"></i></span> vs. yesterday"
    activeAlerts := jsNumStrOf d.active_alerts
    alertsChange :=
      "<span class=\"" ++ (if jsGeZero d.alerts_change then "text-success" else "text-danger") ++
      "\">" ++ jsAbsStrOf d.alerts_change ++ " <i class=\"bi " ++
      (if jsGeZero d.alerts_change then "bi-arrow-up" else "bi-arrow-down") ++
      "\"></i></span> This week"
    sessionActivity := jsStrOf d.session_activity
    currentSession :=
      "<span class=\"text-success\">" ++ jsStrOf d.current_session ++
      " <i class=\"bi bi-record-fill text-danger\"></i></span> Open" }

/-! ## Concrete states and frames used by witnesses and counterexamples -/

/-- A snapshot frame carrying only `volatility_index` with the value 18.4
(written `mkRat 184 10`). -/
def volOnlyPayload : DashPayload :=
  { market_status := none, trending_up := none, breadth_pct := none,
    volatility_index := some (mkRat 184 10), volatility_change := none,
    active_alerts := none, alerts_change := none, technical_breadth := none,
    session_activity := none, current_session := none }

/-- A snapshot frame with no recognized field present. -/
def emptyPayload : DashPayload :=
  { market_status := none, trending_up := none, breadth_pct := none,
    volatility_index := none, volatility_change := none,
    active_alerts := none, alerts_change := none, technical_breadth := none,
    session_activity := none, current_session := none }

/-- Prior content of the copilot dash widgets. -/
def dashPrior : DashWidgets :=
  { marketStatus := "Bullish", marketBreadth := "prior-breadth",
    volatilityValue := "prior-vol", volatilityChange := "prior-vol-change",
    alertsValue := "prior-alerts", alertsDetails := "prior-alert-details",
    sessionValue := "prior-session", sessionDetails := "prior-session-details" }

/-- Prior content of the legacy widgets before a partial frame arrives. -/
def legacyPrior : LegacyWidgets :=
  { marketStatus := "Bullish", trendingUp := "prior-trend",
    volatilityIndex := "prior-vol", volatilityChange := "prior-change",
    activeAlerts := "prior-alerts", alertsChange := "prior-alerts-change",
    sessionActivity := "prior-session", currentSession := "prior-current" }

/-- Prior content of the mi widgets. -/
def miPrior : MiState :=
  { forex := "prior-forex", crypto := "prior-crypto", stocks := "prior-stocks",
    lastUpdated := "prior-time", toasts := [] }

/-! ## Theorems -/

theorem mem_len_le_one_eq {α : Type} {xs : List α} {x : α}
    (hlen : xs.length ≤ 1) (hx : x ∈ xs) : xs = [x] := by
  cases xs with
  | nil => cases hx
  | cons y ys =>
      cases ys with
      | nil => simp_all
      | cons z zs => simp at hlen

theorem dashInv_init : DashInv dashInit := by
  refine ⟨fun _ => rfl, by decide, ?_⟩
  intro td htd
  cases htd

theorem dashInv_step {s s' : DashState} {e : DashEvent}
    (hInv : DashInv s) (hstep : stepDash s e = some s') : DashInv s' := by
  obtain ⟨h1, h2, h3⟩ := hInv
  cases e with
  | opened =>
      by_cases hc : s.socketClosed <;> simp [stepDash, hc] at hstep
      subst hstep
      exact ⟨fun _ => h1 (by simpa using hc), h2, h3⟩
  | closed =>
      by_cases hc : s.socketClosed <;> simp [stepDash, hc] at hstep
      have hpend : s.pending = [] := h1 (by simpa using hc)
      subst hstep
      refine ⟨fun h => by simp at h, ?_, ?_⟩
      · simp [hpend]
      · intro td htd
        simp [hpend] at htd
        simp [htd]
  | fire id =>
      by_cases hc : s.pending.any (fun td => td.1 == id)
      · obtain ⟨td0, htd0mem, htd0id⟩ := List.any_eq_true.mp hc
        have hsingle : s.pending = [td0] := mem_len_le_one_eq h2 htd0mem
        have hid : td0.1 = id := by simpa using htd0id
        simp only [stepDash, hc, if_true, Option.some.injEq] at hstep
        subst hstep
        have hpend' :
            (connectDashSocket
              { s with pending := s.pending.filter (fun td => td.1 != id) }).pending = [] := by
          cases hh : s.timeoutHandle <;>
            simp [connectDashSocket, clearTimeoutModel, hsingle, hid, hh]
        refine ⟨fun _ => hpend', ?_, ?_⟩
        · simp [hpend']
        · intro td htd
          rw [hpend'] at htd
          cases htd
      · simp [stepDash, hc] at hstep

theorem dashInv_reach {s : DashState}
    (h : Reaches stepDash dashInit s) : DashInv s := by
  induction h with
  | refl => exact dashInv_init
  | tail _ hstep ih => exact dashInv_step ih hstep

theorem miConnInv_init : MiConnInv miConnInit := ⟨fun _ => rfl, by decide⟩

theorem miConnInv_step {t t' : MiConn} {e : DashEvent}
    (hInv : MiConnInv t) (hstep : miConnStep t e = some t') : MiConnInv t' := by
  obtain ⟨h1, h2⟩ := hInv
  cases e with
  | opened =>
      by_cases hc : t.socketClosed <;> simp [miConnStep, hc] at hstep
      subst hstep
      exact ⟨h1, h2⟩
  | closed =>
      by_cases hc : t.socketClosed <;> simp [miConnStep, hc] at hstep
      have hpend : t.pending = [] := h1 (by simpa using hc)
      subst hstep
      exact ⟨fun h => by simp at h, by simp [hpend]⟩
  | fire id =>
      by_cases hc : t.pending.contains id
      · have hmem : id ∈ t.pending := by simpa using hc
        have hsingle : t.pending = [id] := mem_len_le_one_eq h2 hmem
        simp only [miConnStep, hc, if_true, Option.some.injEq] at hstep
        subst hstep
        refine ⟨fun _ => ?_, ?_⟩ <;> simp [hsingle]
      · simp [miConnStep, hc] at hstep
        exact absurd hstep.1 (by simpa using hc)

theorem miConnInv_reach {t : MiConn}
    (h : Reaches miConnStep miConnInit t) : MiConnInv t := by
  induction h with
  | refl => exact miConnInv_init
  | tail _ hstep ih => exact miConnInv_step ih hstep

/-- C2: at most one pending reconnect timer ever exists.  In every state the
dash-socket client can reach, at most one reconnect timer is pending, and the
state produced by a `close` event has exactly one; the mi-socket reconnect
loop likewise never has more than one pending timer.  Re-entrant `close`
events cannot stack timers because a socket object fires `close` at most once
and a new socket is built only by `connectDashSocket` / `reconnect`, which is
also where any stale `reconnectState.timeout` handle is cleared first. -/
theorem single_pending_reconnect_timer :
    (∀ s : DashState, Reaches stepDash dashInit s → s.pending.length ≤ 1)
    ∧ (∀ s s' : DashState, Reaches stepDash dashInit s →
        stepDash s DashEvent.closed = some s' → s'.pending.length = 1)
    ∧ (∀ t : MiConn, Reaches miConnStep miConnInit t → t.pending.length ≤ 1) := by
  refine ⟨fun s hs => (dashInv_reach hs).2.1, ?_, fun t ht => (miConnInv_reach ht).2⟩
  intro s s' hs hstep
  obtain ⟨h1, _, _⟩ := dashInv_reach hs
  by_cases hc : s.socketClosed <;> simp [stepDash, hc] at hstep
  have hpend : s.pending = [] := h1 (by simpa using hc)
  subst hstep
  simp [hpend]

/-- Witness for C2: the initial state is reachable and satisfies the bound,
the first `close` yields exactly one pending timer, and the mi-socket initial
state satisfies its bound. -/
theorem single_pending_reconnect_timer_witness :
    dashInit.pending.length ≤ 1
    ∧ dashAfterFirstClose.pending.length = 1
    ∧ miConnInit.pending.length ≤ 1 :=
  ⟨single_pending_reconnect_timer.1 dashInit Reaches.refl,
   single_pending_reconnect_timer.2.1 dashInit dashAfterFirstClose Reaches.refl (by decide),
   single_pending_reconnect_timer.2.2 miConnInit Reaches.refl⟩

/-- C3 counterexample: from the initial state, a successful `open` followed
by the first `close` schedules the reconnect with delay 10000 ms
(`exponentialBackoff 1`, because `onclose` increments `attempts` before
computing the delay), not `exponentialBackoff 0 = 5000` ms as the claim
states. -/
theorem first_close_after_open_delay_cex :
    dashRun [DashEvent.opened, DashEvent.closed] = some dashAfterFirstClose
    ∧ dashAfterFirstClose.pending.map Prod.snd = [10000]
    ∧ exponentialBackoff 0 = 5000
    ∧ (10000 : Nat) ≠ 5000 := by decide

/-- C3 as amended: a successful open acknowledgment resets `attempts` to 0,
and the first close event following it schedules a reconnect after exactly
`exponentialBackoff 1 = 10000` milliseconds (the close handler increments the
attempt count before consulting the backoff policy); thanks to the reset this
delay is independent of how many attempts preceded the successful open. -/
theorem open_resets_attempts_first_close_delay :
    ∀ s s1 s2 : DashState,
      stepDash s DashEvent.opened = some s1 →
      stepDash s1 DashEvent.closed = some s2 →
      s1.attempts = 0
      ∧ s2.attempts = 1
      ∧ s2.pending.head? = some (s1.nextId, exponentialBackoff 1)
      ∧ exponentialBackoff 1 = 10000 := by
  intro s s1 s2 h1 h2
  by_cases hc : s.socketClosed <;> simp [stepDash, hc] at h1
  subst h1
  simp only [stepDash] at h2
  rw [if_neg (by simp [hc])] at h2
  simp only [Option.some.injEq] at h2
  subst h2
  exact ⟨rfl, rfl, rfl, by decide⟩

/-- Witness for C3 as amended, at the initial state. -/
theorem open_resets_attempts_first_close_delay_witness :
    dashInit.attempts = 0
    ∧ dashAfterFirstClose.attempts = 1
    ∧ dashAfterFirstClose.pending.head? = some (dashInit.nextId, exponentialBackoff 1)
    ∧ exponentialBackoff 1 = 10000 :=
  open_resets_attempts_first_close_delay dashInit dashInit dashAfterFirstClose
    (by decide) (by decide)

/-- C1: the backoff delay is exactly `min (5000 * 2 ^ attempt) 60000`
milliseconds for every attempt count; in particular it is 5000 at attempt 0,
non-decreasing in the attempt count, and bounded by 60000. -/
theorem backoff_formula_spec :
    (∀ a : Nat, exponentialBackoff a = min (5000 * 2 ^ a) 60000)
    ∧ exponentialBackoff 0 = 5000
    ∧ (∀ a b : Nat, a ≤ b → exponentialBackoff a ≤ exponentialBackoff b)
    ∧ (∀ a : Nat, exponentialBackoff a ≤ 60000) := by
  refine ⟨fun a => rfl, by decide, ?_, fun a => min_le_right _ _⟩
  intro a b hab
  exact min_le_min
    (Nat.mul_le_mul_left _ (Nat.pow_le_pow_right (by decide) hab)) le_rfl

/-- Witness for C1 at concrete attempt counts. -/
theorem backoff_formula_spec_witness :
    exponentialBackoff 2 = min (5000 * 2 ^ 2) 60000
    ∧ exponentialBackoff 0 = 5000
    ∧ exponentialBackoff 2 ≤ exponentialBackoff 5
    ∧ exponentialBackoff 7 ≤ 60000 :=
  ⟨backoff_formula_spec.1 2, backoff_formula_spec.2.1,
   backoff_formula_spec.2.2.1 2 5 (by decide), backoff_formula_spec.2.2.2 7⟩

/-- C4 counterexample: on a secure page the market-intelligence stream URL
still uses the plain `ws` scheme, while the claim requires the secure scheme
on a secure page; the dashboard stream does follow the page scheme. -/
theorem mi_socket_scheme_cex :
    miSocketUrl "https:" "example.com" = "ws://example.com/ws/market-intelligence/"
    ∧ miSocketUrl "https:" "example.com" ≠ "wss://example.com/ws/market-intelligence/"
    ∧ dashSocketUrl "https:" "example.com" = "wss://example.com/ws/dashboard/" := by
  refine ⟨rfl, by decide, rfl⟩

/-- C4 as amended: the dashboard stream derives its scheme from the page
transport (secure page yields `wss`, otherwise `ws`), with the page host and
the fixed path `/ws/dashboard/`; the market-intelligence stream always uses
the plain `ws` scheme regardless of the page transport, with the page host
and the fixed path `/ws/market-intelligence/`. -/
theorem socket_url_schemes :
    ∀ host : String,
      dashSocketUrl "https:" host = "wss://" ++ host ++ "/ws/dashboard/"
      ∧ (∀ p : String, p ≠ "https:" →
          dashSocketUrl p host = "ws://" ++ host ++ "/ws/dashboard/")
      ∧ (∀ p : String, miSocketUrl p host = "ws://" ++ host ++ "/ws/market-intelligence/") := by
  intro host
  refine ⟨rfl, ?_, fun p => rfl⟩
  intro p hp
  simp [dashSocketUrl, wsProtocol, hp]

/-- Witness for C4 as amended at concrete pages. -/
theorem socket_url_schemes_witness :
    dashSocketUrl "https:" "example.com" = "wss://example.com/ws/dashboard/"
    ∧ dashSocketUrl "http:" "example.com" = "ws://example.com/ws/dashboard/"
    ∧ miSocketUrl "http:" "example.com" = "ws://example.com/ws/market-intelligence/" :=
  ⟨(socket_url_schemes "example.com").1,
   (socket_url_schemes "example.com").2.1 "http:" (by decide),
   (socket_url_schemes "example.com").2.2 "http:"⟩

/-- C5 counterexample: a command sent while the socket is CONNECTING (not
Open) is not a silent no-op: the unguarded `socket.send` throws
InvalidStateError, contradicting the claim that send never throws outside
the Open state. -/
theorem send_while_connecting_throws_cex :
    requestImmediateUpdate ⟨⟨ReadyState.connecting, []⟩, miPrior⟩ = .error "InvalidStateError"
    ∧ updatePreferences ⟨⟨ReadyState.connecting, []⟩, miPrior⟩ "\x7b\x7d" =
        .error "InvalidStateError" :=
  ⟨rfl, rfl⟩

/-- C5 as amended: the outbound commands are unguarded passthroughs to the
platform send.  In the CLOSING and CLOSED states they are silent no-ops:
nothing is thrown, nothing is transmitted, the socket and all widget and
notification state are unchanged.  In the CONNECTING state they throw
InvalidStateError.  Only in the OPEN state is the command frame transmitted
(widgets again untouched). -/
theorem send_not_open_behavior :
    ∀ (c : MiClient) (prefs : String),
      (c.socket.readyState = ReadyState.closing ∨ c.socket.readyState = ReadyState.closed →
        requestImmediateUpdate c = .ok c ∧ updatePreferences c prefs = .ok c)
      ∧ (c.socket.readyState = ReadyState.connecting →
        requestImmediateUpdate c = .error "InvalidStateError"
        ∧ updatePreferences c prefs = .error "InvalidStateError")
      ∧ (c.socket.readyState = ReadyState.opened →
        requestImmediateUpdate c =
          .ok { c with socket := { c.socket with sent := c.socket.sent ++ [reqUpdateMsg] } }) := by
  intro c prefs
  refine ⟨?_, ?_, ?_⟩
  · rintro (h | h) <;>
      exact ⟨by simp [requestImmediateUpdate, wsSend, h],
             by simp [updatePreferences, wsSend, h]⟩
  · intro h
    exact ⟨by simp [requestImmediateUpdate, wsSend, h],
           by simp [updatePreferences, wsSend, h]⟩
  · intro h
    simp [requestImmediateUpdate, wsSend, h]

/-- Witness for C5 as amended in each readyState. -/
theorem send_not_open_behavior_witness :
    requestImmediateUpdate ⟨⟨ReadyState.closed, []⟩, miPrior⟩ =
      .ok ⟨⟨ReadyState.closed, []⟩, miPrior⟩
    ∧ updatePreferences ⟨⟨ReadyState.closed, []⟩, miPrior⟩ "p" =
        .ok ⟨⟨ReadyState.closed, []⟩, miPrior⟩
    ∧ requestImmediateUpdate ⟨⟨ReadyState.connecting, ["x"]⟩, miPrior⟩ =
        .error "InvalidStateError"
    ∧ requestImmediateUpdate ⟨⟨ReadyState.opened, []⟩, miPrior⟩ =
        .ok ⟨⟨ReadyState.opened, [reqUpdateMsg]⟩, miPrior⟩ := by
  have h1 := (send_not_open_behavior ⟨⟨ReadyState.closed, []⟩, miPrior⟩ "p").1 (Or.inr rfl)
  have h2 := (send_not_open_behavior ⟨⟨ReadyState.connecting, ["x"]⟩, miPrior⟩ "p").2.1 rfl
  have h3 := (send_not_open_behavior ⟨⟨ReadyState.opened, []⟩, miPrior⟩ "p").2.2 rfl
  exact ⟨h1.1, h1.2, h2.1, h3⟩

/-- C7 counterexample: a well-formed JSON frame that mismatches the
InboundMessage schema (its crypto entry is the number 42 instead of a
narrative list) is dispatched without throwing, but does alter widget
content: the crypto region is cleared to the no-data state. -/
theorem schema_mismatch_mutates_cex :
    dispatch (.ok (JsVal.obj [("type", JsVal.str "market_intelligence"),
        ("data", JsVal.obj [("crypto", JsVal.num 42)])])) miPrior ≠ miPrior
    ∧ (dispatch (.ok (JsVal.obj [("type", JsVal.str "market_intelligence"),
        ("data", JsVal.obj [("crypto", JsVal.num 42)])])) miPrior).crypto = noDataHtml "crypto"
    ∧ miPrior.crypto = "prior-crypto" := by
  refine ⟨fun h => ?_, rfl, rfl⟩
  have h2 : noDataHtml "crypto" = "prior-crypto" := by
    calc noDataHtml "crypto"
        = (dispatch (.ok (JsVal.obj [("type", JsVal.str "market_intelligence"),
            ("data", JsVal.obj [("crypto", JsVal.num 42)])])) miPrior).crypto := rfl
      _ = miPrior.crypto := by rw [h]
      _ = "prior-crypto" := rfl
  exact absurd h2 (by decide)

/-- C7 as amended: dispatch is a total function (it never throws to its
caller, for any input), and a parse failure — any input string that is not
valid JSON — is caught and leaves the widgets, notifications and connection
state unchanged, for both streaming clients; but a well-formed JSON frame
that merely mismatches the InboundMessage schema may still alter widget
content (see the counterexample). -/
theorem dispatch_parse_failure_unchanged :
    (∀ (e : String) (st : MiState), dispatch (.error e) st = st)
    ∧ (∀ (e : String) (w : DashWidgets), dashDispatch (.error e) w = w) :=
  ⟨fun _ _ => rfl, fun _ _ => rfl⟩

/-- C9: a frame whose type discriminator is not one of the recognized
variants is ignored silently: no widget changes, no toast is emitted, no
error is raised, and `handleMessage` returns the state unchanged — whether
the discriminator is an unrecognized string or not a string at all. -/
theorem unknown_type_ignored :
    (∀ (v : JsVal) (st : MiState) (s : String),
      v.getField? "type" = some (JsVal.str s) →
      s ≠ "market_intelligence" → s ≠ "immediate_update" →
      s ≠ "preferences_updated" → s ≠ "error" →
      handleMessage v st = st)
    ∧ (∀ (v : JsVal) (st : MiState) (t : JsVal),
      v.getField? "type" = some t → (∀ s : String, t ≠ JsVal.str s) →
      handleMessage v st = st) := by
  constructor
  · intro v st s hget h1 h2 h3 h4
    simp [handleMessage, handleMessageBody, hget, h1, h2, h3, h4]
  · intro v st t hget hns
    cases t <;> first
      | exact absurd rfl (hns _)
      | simp [handleMessage, handleMessageBody, hget]

/-- Witness for C9 at an unrecognized string type and a non-string type. -/
theorem unknown_type_ignored_witness :
    handleMessage (JsVal.obj [("type", JsVal.str "bogus")]) miPrior = miPrior
    ∧ handleMessage (JsVal.obj [("type", JsVal.num 7)]) miPrior = miPrior := by
  constructor
  · exact unknown_type_ignored.1 (JsVal.obj [("type", JsVal.str "bogus")]) miPrior "bogus"
      rfl (by decide) (by decide) (by decide) (by decide)
  · exact unknown_type_ignored.2 (JsVal.obj [("type", JsVal.num 7)]) miPrior (JsVal.num 7)
      rfl (fun s h => JsVal.noConfusion h)

theorem getRegion_setRegion_ne {st : MiState} {cid cid' : ContainerId}
    (h : cid' ≠ cid) (x : String) :
    getRegion (setRegion st cid' x) cid = getRegion st cid := by
  cases cid' <;> cases cid <;> simp_all [getRegion, setRegion]

theorem renderNarratives_region_ne {cid cid' : ContainerId} (h : cid' ≠ cid) (cls : String) :
    ∀ (xs : List JsVal) (st : MiState),
      regionOfResult (renderNarratives cid' cls st xs) cid = getRegion st cid := by
  intro xs
  induction xs with
  | nil => intro st; rfl
  | cons n rest ih =>
      intro st
      cases hh : narrativeHtml cls n with
      | error e => simp [renderNarratives, hh, regionOfResult]
      | ok html =>
          simp only [renderNarratives, hh]
          rw [ih]
          exact getRegion_setRegion_ne h _

theorem narrativeHtml_toJs (cls : String) (n : Narrative) :
    narrativeHtml cls (Narrative.toJs n) = .ok (entryOfNarrative cls n) := rfl

theorem renderInherited_region (cls : String) (cid : ContainerId) :
    ∀ (xs : List JsVal) (st : MiState),
      regionOfResult (renderInherited st cls xs) cid = getRegion st cid := by
  intro xs
  induction xs with
  | nil => intro st; rfl
  | cons n rest ih =>
      intro st
      cases hh : narrativeHtml cls n with
      | error e => simp [renderInherited, hh, regionOfResult]
      | ok html =>
          simp only [renderInherited, hh]
          exact ih st

theorem renderInherited_map (cls : String) :
    ∀ (ns : List Narrative) (st : MiState),
      renderInherited st cls (ns.map Narrative.toJs) = .ok st := by
  intro ns
  induction ns with
  | nil => intro st; rfl
  | cons n rest ih =>
      intro st
      simp only [List.map_cons, renderInherited, narrativeHtml_toJs]
      exact ih st

theorem updateAsset_region_ne {st : MiState} {cls : String} {cid : ContainerId} {ns : JsVal}
    (h : assetContainers cls ≠ ContainerLookup.element cid) :
    regionOfResult (updateAssetDashboard st cls ns) cid = getRegion st cid := by
  cases hc : assetContainers cls with
  | missing => simp [updateAssetDashboard, hc, regionOfResult]
  | inherited =>
      simp only [updateAssetDashboard, hc]
      by_cases ht : (JsVal.truthy ns && jsLengthPos ns) = true
      · rw [if_pos ht]
        cases ns with
        | arr xs => exact renderInherited_region cls cid xs st
        | str s => rfl
        | undefined => simp [JsVal.truthy, jsLengthPos] at ht
        | null => simp [JsVal.truthy, jsLengthPos] at ht
        | bool b => simp [JsVal.truthy, jsLengthPos] at ht
        | num q => simp [JsVal.truthy, jsLengthPos] at ht
        | obj fs => simp [JsVal.truthy, jsLengthPos] at ht
      · rw [if_neg ht]
        rfl
  | element cid' =>
      have hne : cid' ≠ cid := fun he => h (by rw [hc, he])
      simp only [updateAssetDashboard, hc]
      by_cases ht : (JsVal.truthy ns && jsLengthPos ns) = true
      · rw [if_pos ht]
        cases ns with
        | arr xs =>
            rw [renderNarratives_region_ne hne cls xs]
            exact getRegion_setRegion_ne hne _
        | str s => exact getRegion_setRegion_ne hne _
        | undefined => simp [JsVal.truthy, jsLengthPos] at ht
        | null => simp [JsVal.truthy, jsLengthPos] at ht
        | bool b => simp [JsVal.truthy, jsLengthPos] at ht
        | num q => simp [JsVal.truthy, jsLengthPos] at ht
        | obj fs => simp [JsVal.truthy, jsLengthPos] at ht
      · rw [if_neg ht]
        exact (getRegion_setRegion_ne hne _).trans (getRegion_setRegion_ne hne _)

theorem updateEntries_region {cid : ContainerId} :
    ∀ (es : List (String × JsVal)) (st : MiState),
      (∀ p ∈ es, assetContainers p.1 ≠ ContainerLookup.element cid) →
      regionOfResult (updateEntries st es) cid = getRegion st cid := by
  intro es
  induction es with
  | nil => intro st _; rfl
  | cons p rest ih =>
      intro st hall
      obtain ⟨cls, ns⟩ := p
      have hhead : assetContainers cls ≠ ContainerLookup.element cid :=
        hall (cls, ns) (List.mem_cons_self _ _)
      have hrest : ∀ q ∈ rest, assetContainers q.1 ≠ ContainerLookup.element cid :=
        fun q hq => hall q (List.mem_cons_of_mem _ hq)
      cases hu : updateAssetDashboard st cls ns with
      | error e =>
          simp only [updateEntries, hu]
          have hre := @updateAsset_region_ne st cls cid ns hhead
          rw [hu] at hre
          exact hre
      | ok st' =>
          simp only [updateEntries, hu]
          rw [ih st' hrest]
          have hre := @updateAsset_region_ne st cls cid ns hhead
          rw [hu] at hre
          exact hre

/-- C10 counterexample: the key `constructor` is not one of forex, crypto,
stocks, yet it is not silently skipped — the bracket lookup walks the
prototype chain and returns the truthy inherited `Object.prototype.constructor`,
so the `!container` guard passes, and with the truthy positive-length
non-array value `"x"` the `narratives.forEach` call throws a TypeError,
which also aborts the remaining entries of the payload. -/
theorem proto_key_not_skipped_cex :
    updateAssetDashboard miPrior "constructor" (JsVal.str "x") =
      .error ("TypeError", miPrior)
    ∧ updateAssetDashboard miPrior "constructor" (JsVal.str "x") ≠ .ok miPrior
    ∧ updateEntries miPrior [("constructor", JsVal.str "x"), ("forex", JsVal.arr [])] =
      .error ("TypeError", miPrior)
    ∧ assetContainers "constructor" = ContainerLookup.inherited := by
  refine ⟨rfl, ?_, rfl, by decide⟩
  intro h
  exact Except.noConfusion
    ((rfl : (.error ("TypeError", miPrior) : Except (String × MiState) MiState) =
      updateAssetDashboard miPrior "constructor" (JsVal.str "x")).trans h)

/-- C10 as amended: a key that is neither an asset class nor an inherited
`Object.prototype` member name is skipped silently with no mutation at all.
A key that collides with an inherited `Object.prototype` member name passes
the container guard, but its `innerHTML` writes land on the inherited object,
so no dashboard region changes either — a list of well-formed narratives
under such a key is a complete no-op, while a truthy non-array value with
positive `length` under such a key throws a TypeError that aborts the
remaining entries (see the counterexample).  In every case, any region whose
asset class does not appear in the payload mapping keeps its prior content,
even when another entry throws mid-update. -/
theorem asset_key_filtering :
    (∀ (st : MiState) (cls : String) (ns : JsVal),
      cls ≠ "forex" → cls ≠ "crypto" → cls ≠ "stocks" →
      protoKeys.contains cls = false →
      updateAssetDashboard st cls ns = .ok st)
    ∧ (∀ (st : MiState) (cls : String) (ns : List Narrative),
      protoKeys.contains cls = true →
      updateAssetDashboard st cls (JsVal.arr (ns.map Narrative.toJs)) = .ok st)
    ∧ (∀ (st : MiState) (cls : String) (ns : JsVal) (cid : ContainerId),
      assetContainers cls ≠ ContainerLookup.element cid →
      regionOfResult (updateAssetDashboard st cls ns) cid = getRegion st cid)
    ∧ (∀ (st : MiState) (fs : List (String × JsVal)) (cid : ContainerId),
      (∀ p ∈ fs, assetContainers p.1 ≠ ContainerLookup.element cid) →
      regionOfResult (updateAllAssetDashboards st (JsVal.obj fs)) cid = getRegion st cid) := by
  refine ⟨?_, ?_, ?_, ?_⟩
  · intro st cls ns h1 h2 h3 h4
    have hcls : assetContainers cls = ContainerLookup.missing := by
      unfold assetContainers
      rw [if_neg h1, if_neg h2, if_neg h3, if_neg (fun hc => Bool.noConfusion (h4.symm.trans hc))]
    simp [updateAssetDashboard, hcls]
  · intro st cls ns hp
    have h1 : cls ≠ "forex" := by rintro rfl; revert hp; decide
    have h2 : cls ≠ "crypto" := by rintro rfl; revert hp; decide
    have h3 : cls ≠ "stocks" := by rintro rfl; revert hp; decide
    have hcls : assetContainers cls = ContainerLookup.inherited := by
      unfold assetContainers
      rw [if_neg h1, if_neg h2, if_neg h3, if_pos hp]
    simp only [updateAssetDashboard, hcls]
    by_cases hlen : (JsVal.truthy (JsVal.arr (ns.map Narrative.toJs))
        && jsLengthPos (JsVal.arr (ns.map Narrative.toJs))) = true
    · rw [if_pos hlen]
      exact renderInherited_map cls ns st
    · rw [if_neg hlen]
  · intro st cls ns cid h
    exact updateAsset_region_ne h
  · intro st fs cid hall
    simp only [updateAllAssetDashboards, JsVal.entriesOf?]
    exact updateEntries_region fs st hall

/-- Witness for C10 as amended: a truly-unknown key is a complete no-op, a
prototype-colliding key with well-formed narratives is a complete no-op, the
crypto region survives a prototype-colliding throwing entry, and it also
survives a payload mixing a forex entry, a throwing `constructor` entry and
an unknown key. -/
theorem asset_key_filtering_witness :
    updateAssetDashboard miPrior "bond" (JsVal.arr []) = .ok miPrior
    ∧ updateAssetDashboard miPrior "toString"
        (JsVal.arr ([Narrative.mk "EURUSD" "high" "breakout" (82/100) "t"].map
          Narrative.toJs)) = .ok miPrior
    ∧ regionOfResult (updateAssetDashboard miPrior "constructor" (JsVal.str "x"))
        ContainerId.crypto = getRegion miPrior ContainerId.crypto
    ∧ regionOfResult (updateAllAssetDashboards miPrior
        (JsVal.obj [("forex", JsVal.arr []), ("constructor", JsVal.str "x"),
          ("bond", JsVal.num 1)])) ContainerId.crypto
      = getRegion miPrior ContainerId.crypto := by
  refine ⟨?_, ?_, ?_, ?_⟩
  · exact asset_key_filtering.1 miPrior "bond" (JsVal.arr [])
      (by decide) (by decide) (by decide) (by decide)
  · exact asset_key_filtering.2.1 miPrior "toString"
      [Narrative.mk "EURUSD" "high" "breakout" (82/100) "t"] (by decide)
  · exact asset_key_filtering.2.2.1 miPrior "constructor" (JsVal.str "x")
      ContainerId.crypto (by decide)
  · exact asset_key_filtering.2.2.2 miPrior
      [("forex", JsVal.arr []), ("constructor", JsVal.str "x"), ("bond", JsVal.num 1)]
      ContainerId.crypto (by decide)

theorem string_append_ne_empty_right (a b : String) (hb : b ≠ "") : a ++ b ≠ "" := by
  intro h
  have h2 : a.data ++ b.data = [] := congrArg String.data h
  exact hb (String.ext (List.append_eq_nil.mp h2).2)

theorem string_empty_append (s : String) : "" ++ s = s := by
  cases s with | mk l => rfl

theorem string_append_empty (s : String) : s ++ "" = s := by
  cases s with | mk l => exact congrArg String.mk (List.append_nil l)

theorem string_append_assoc (a b c : String) : (a ++ b) ++ c = a ++ (b ++ c) := by
  cases a with | mk la => cases b with | mk lb => cases c with | mk lc =>
    exact congrArg String.mk (List.append_assoc la lb lc)

theorem getRegion_setRegion_self (st : MiState) (cid : ContainerId) (x : String) :
    getRegion (setRegion st cid x) cid = x := by
  cases cid <;> rfl

theorem setRegion_setRegion (st : MiState) (cid : ContainerId) (a b : String) :
    setRegion (setRegion st cid a) cid b = setRegion st cid b := by
  cases cid <;> rfl

theorem setRegion_getRegion (st : MiState) (cid : ContainerId) :
    setRegion st cid (getRegion st cid) = st := by
  cases cid <;> rfl

theorem renderNarratives_map (cid : ContainerId) (cls : String) :
    ∀ (ns : List Narrative) (st : MiState),
      renderNarratives cid cls st (ns.map Narrative.toJs) =
        .ok (setRegion st cid (getRegion st cid ++ concatAll (ns.map (entryOfNarrative cls)))) := by
  intro ns
  induction ns with
  | nil =>
      intro st
      simp [renderNarratives, concatAll, string_append_empty, setRegion_getRegion]
  | cons n rest ih =>
      intro st
      simp only [List.map_cons, renderNarratives, narrativeHtml_toJs, concatAll]
      rw [ih, getRegion_setRegion_self, setRegion_setRegion, string_append_assoc]

/-- For a nonnegative rational, `toFixedStr 0` renders exactly the nearest
integer in the sense of `round`. -/
theorem toFixed0_nonneg_eq_round (q : ℚ) (hq : 0 ≤ q) :
    toFixedStr 0 q = toString (round q).toNat := by
  have hnum : 0 ≤ q.num := Rat.num_nonneg.mpr hq
  have hcast : ((2 * q.num.natAbs + q.den : ℕ) : ℤ) = 2 * q.num + q.den := by
    push_cast [Int.natAbs_of_nonneg hnum]
    ring
  have hq' : q + 1/2 = ((2 * q.num + q.den : ℤ) : ℚ) / ((2 * q.den : ℕ) : ℚ) := by
    conv_lhs => rw [← Rat.num_div_den q]
    have hden0 : ((q.den : ℚ)) ≠ 0 := Nat.cast_ne_zero.mpr q.den_pos.ne'
    push_cast
    field_simp
    ring
  have hround : round q = ((2 * q.num.natAbs + q.den) / (2 * q.den) : ℕ) := by
    rw [round_eq, hq', Rat.floor_intCast_div_natCast, ← hcast]
    exact (Int.ofNat_tdiv _ _).symm
  have h0 : toFixedStr 0 q =
      (if q.num < 0 then "-" else "") ++
        toString ((2 * (q.num.natAbs * 10 ^ 0) + q.den) / (2 * q.den)) := rfl
  rw [h0, if_neg (not_lt.mpr hnum), string_empty_append, pow_zero, Nat.mul_one, hround,
    Int.toNat_natCast]

/-- C8 counterexample: a priority string that collides with an inherited
`Object.prototype` member name does not map to the neutral severity — the
bracket lookup walks the prototype chain and returns the truthy inherited
member, which short-circuits the `||` fallback, so the code interpolates the
member instead of `alert-secondary` as the alert class of the rendered
entry. -/
theorem proto_priority_not_neutral_cex :
    priorityClassOfStr "constructor" = inheritedDisplay "constructor"
    ∧ priorityClassOfStr "constructor" ≠ "alert-secondary"
    ∧ narrativeHtml "forex"
        (Narrative.toJs (Narrative.mk "EURUSD" "constructor" "breakout" 1 "t")) =
      .ok (entryOfNarrative "forex" (Narrative.mk "EURUSD" "constructor" "breakout" 1 "t"))
    ∧ entryOfNarrative "forex" (Narrative.mk "EURUSD" "constructor" "breakout" 1 "t") =
      entryTemplate (inheritedDisplay "constructor") "bi-currency-exchange" "EURUSD"
        "constructor" "breakout" "t" (toFixedStr 0 (1 * 100)) :=
  ⟨rfl, by decide, narrativeHtml_toJs _ _, rfl⟩

/-- C8 as amended: for a container-backed asset class the renderer fully
replaces the region content with a function of the input alone — an empty
narrative sequence yields the explicit no-data markup (never the blank
string left by the clearing step), and a non-empty sequence yields exactly
the concatenation of one entry per Narrative in the given order; the
priority maps high to danger, medium to warning, low to info, and any other
priority that does not collide with an inherited `Object.prototype` member
name to the neutral secondary severity — a priority colliding with such a
member name (constructor, toString, and so on) short-circuits the fallback
and interpolates the inherited member instead (see the counterexample); and
the confidence fraction is rendered as the percentage rounded to the nearest
whole number (the rounding differs from the true value by at most one
half). -/
theorem narrative_render_spec :
    (∀ (st : MiState) (cls : String) (cid : ContainerId),
      assetContainers cls = ContainerLookup.element cid →
      updateAssetDashboard st cls (JsVal.arr []) = .ok (setRegion st cid (noDataHtml cls))
      ∧ noDataHtml cls ≠ "")
    ∧ (∀ (st : MiState) (cls : String) (cid : ContainerId) (ns : List Narrative),
      assetContainers cls = ContainerLookup.element cid → ns ≠ [] →
      updateAssetDashboard st cls (JsVal.arr (ns.map Narrative.toJs)) =
        .ok (setRegion st cid (concatAll (ns.map (entryOfNarrative cls)))))
    ∧ (priorityClassOfStr "high" = "alert-danger"
      ∧ priorityClassOfStr "medium" = "alert-warning"
      ∧ priorityClassOfStr "low" = "alert-info"
      ∧ (∀ p : String, p ≠ "high" → p ≠ "medium" → p ≠ "low" →
          protoKeys.contains p = false → priorityClassOfStr p = "alert-secondary")
      ∧ (∀ p : String, protoKeys.contains p = true →
          priorityClassOfStr p = inheritedDisplay p))
    ∧ (∀ c : ℚ, 0 ≤ c → toFixedStr 0 (c * 100) = toString (round (c * 100)).toNat)
    ∧ (∀ c : ℚ, |c * 100 - ((round (c * 100) : ℤ) : ℚ)| ≤ 1 / 2) := by
  refine ⟨?_, ?_, ⟨rfl, rfl, rfl, ?_, ?_⟩, ?_, fun c => abs_sub_round (c * 100)⟩
  · intro st cls cid hc
    constructor
    · simp [updateAssetDashboard, hc, JsVal.truthy, jsLengthPos, setRegion_setRegion]
    · exact string_append_ne_empty_right _ _ (by decide)
  · intro st cls cid ns hc hne
    have hlen : 0 < (ns.map Narrative.toJs).length := by
      simpa using List.length_pos.mpr hne
    simp only [updateAssetDashboard, hc, JsVal.truthy, jsLengthPos, hlen,
      decide_True, Bool.and_self, if_true]
    rw [renderNarratives_map, getRegion_setRegion_self, setRegion_setRegion,
      string_empty_append]
  · intro p h1 h2 h3 h4
    unfold priorityClassOfStr
    rw [if_neg h1, if_neg h2, if_neg h3, if_neg (fun hc => Bool.noConfusion (h4.symm.trans hc))]
  · intro p hp
    have h1 : p ≠ "high" := by rintro rfl; revert hp; decide
    have h2 : p ≠ "medium" := by rintro rfl; revert hp; decide
    have h3 : p ≠ "low" := by rintro rfl; revert hp; decide
    unfold priorityClassOfStr
    rw [if_neg h1, if_neg h2, if_neg h3, if_pos hp]
  · intro c hc
    exact toFixed0_nonneg_eq_round (c * 100) (by positivity)

/-- Witness for C8 as amended, at a concrete asset class and narrative list
(the worked example of the spec: one high-priority forex narrative with
confidence 0.82, rendered at 82 percent) together with a non-colliding and a
prototype-colliding fallback key. -/
theorem narrative_render_spec_witness :
    updateAssetDashboard miPrior "crypto" (JsVal.arr []) =
      .ok (setRegion miPrior ContainerId.crypto (noDataHtml "crypto"))
    ∧ noDataHtml "crypto" ≠ ""
    ∧ updateAssetDashboard miPrior "forex"
        (JsVal.arr ([Narrative.mk "EURUSD" "high" "breakout" (82/100) "2024-01-01T00:00:00Z"].map
          Narrative.toJs)) =
      .ok (setRegion miPrior ContainerId.forex
        (concatAll ([Narrative.mk "EURUSD" "high" "breakout" (82/100) "2024-01-01T00:00:00Z"].map
          (entryOfNarrative "forex"))))
    ∧ priorityClassOfStr "urgent" = "alert-secondary"
    ∧ priorityClassOfStr "toString" = inheritedDisplay "toString"
    ∧ toFixedStr 0 ((82/100 : ℚ) * 100) = toString (round ((82/100 : ℚ) * 100)).toNat
    ∧ toFixedStr 0 (mkRat 82 1) = "82"
    ∧ |(82/100 : ℚ) * 100 - ((round ((82/100 : ℚ) * 100) : ℤ) : ℚ)| ≤ 1 / 2 := by
  refine ⟨(narrative_render_spec.1 miPrior "crypto" ContainerId.crypto rfl).1,
          (narrative_render_spec.1 miPrior "crypto" ContainerId.crypto rfl).2,
          narrative_render_spec.2.1 miPrior "forex" ContainerId.forex _ rfl
            (List.cons_ne_nil _ _),
          narrative_render_spec.2.2.1.2.2.2.1 "urgent"
            (by decide) (by decide) (by decide) (by decide),
          narrative_render_spec.2.2.1.2.2.2.2 "toString" (by decide),
          narrative_render_spec.2.2.2.1 (82/100) (by norm_num),
          by decide,
          narrative_render_spec.2.2.2.2 (82/100)⟩

theorem applyMarketStatus_marketBreadth (d : DashPayload) (w : DashWidgets) :
    (applyMarketStatus d w).marketBreadth = w.marketBreadth := by
  unfold applyMarketStatus; split <;> first | rfl | (split <;> rfl)

theorem applyMarketStatus_volatilityValue (d : DashPayload) (w : DashWidgets) :
    (applyMarketStatus d w).volatilityValue = w.volatilityValue := by
  unfold applyMarketStatus; split <;> first | rfl | (split <;> rfl)

theorem applyMarketStatus_volatilityChange (d : DashPayload) (w : DashWidgets) :
    (applyMarketStatus d w).volatilityChange = w.volatilityChange := by
  unfold applyMarketStatus; split <;> first | rfl | (split <;> rfl)

theorem applyMarketStatus_alertsValue (d : DashPayload) (w : DashWidgets) :
    (applyMarketStatus d w).alertsValue = w.alertsValue := by
  unfold applyMarketStatus; split <;> first | rfl | (split <;> rfl)

theorem applyMarketStatus_alertsDetails (d : DashPayload) (w : DashWidgets) :
    (applyMarketStatus d w).alertsDetails = w.alertsDetails := by
  unfold applyMarketStatus; split <;> first | rfl | (split <;> rfl)

theorem applyMarketStatus_sessionValue (d : DashPayload) (w : DashWidgets) :
    (applyMarketStatus d w).sessionValue = w.sessionValue := by
  unfold applyMarketStatus; split <;> first | rfl | (split <;> rfl)

theorem applyMarketStatus_sessionDetails (d : DashPayload) (w : DashWidgets) :
    (applyMarketStatus d w).sessionDetails = w.sessionDetails := by
  unfold applyMarketStatus; split <;> first | rfl | (split <;> rfl)

theorem applyBreadth_marketStatus (d : DashPayload) (w : DashWidgets) :
    (applyBreadth d w).marketStatus = w.marketStatus := by
  unfold applyBreadth; split <;> rfl

theorem applyBreadth_volatilityValue (d : DashPayload) (w : DashWidgets) :
    (applyBreadth d w).volatilityValue = w.volatilityValue := by
  unfold applyBreadth; split <;> rfl

theorem applyBreadth_volatilityChange (d : DashPayload) (w : DashWidgets) :
    (applyBreadth d w).volatilityChange = w.volatilityChange := by
  unfold applyBreadth; split <;> rfl

theorem applyBreadth_alertsValue (d : DashPayload) (w : DashWidgets) :
    (applyBreadth d w).alertsValue = w.alertsValue := by
  unfold applyBreadth; split <;> rfl

theorem applyBreadth_alertsDetails (d : DashPayload) (w : DashWidgets) :
    (applyBreadth d w).alertsDetails = w.alertsDetails := by
  unfold applyBreadth; split <;> rfl

theorem applyBreadth_sessionValue (d : DashPayload) (w : DashWidgets) :
    (applyBreadth d w).sessionValue = w.sessionValue := by
  unfold applyBreadth; split <;> rfl

theorem applyBreadth_sessionDetails (d : DashPayload) (w : DashWidgets) :
    (applyBreadth d w).sessionDetails = w.sessionDetails := by
  unfold applyBreadth; split <;> rfl

theorem applyVolIndex_marketStatus (d : DashPayload) (w : DashWidgets) :
    (applyVolIndex d w).marketStatus = w.marketStatus := by
  unfold applyVolIndex; split <;> rfl

theorem applyVolIndex_marketBreadth (d : DashPayload) (w : DashWidgets) :
    (applyVolIndex d w).marketBreadth = w.marketBreadth := by
  unfold applyVolIndex; split <;> rfl

theorem applyVolIndex_volatilityChange (d : DashPayload) (w : DashWidgets) :
    (applyVolIndex d w).volatilityChange = w.volatilityChange := by
  unfold applyVolIndex; split <;> rfl

theorem applyVolIndex_alertsValue (d : DashPayload) (w : DashWidgets) :
    (applyVolIndex d w).alertsValue = w.alertsValue := by
  unfold applyVolIndex; split <;> rfl

theorem applyVolIndex_alertsDetails (d : DashPayload) (w : DashWidgets) :
    (applyVolIndex d w).alertsDetails = w.alertsDetails := by
  unfold applyVolIndex; split <;> rfl

theorem applyVolIndex_sessionValue (d : DashPayload) (w : DashWidgets) :
    (applyVolIndex d w).sessionValue = w.sessionValue := by
  unfold applyVolIndex; split <;> rfl

theorem applyVolIndex_sessionDetails (d : DashPayload) (w : DashWidgets) :
    (applyVolIndex d w).sessionDetails = w.sessionDetails := by
  unfold applyVolIndex; split <;> rfl

theorem applyVolChange_marketStatus (d : DashPayload) (w : DashWidgets) :
    (applyVolChange d w).marketStatus = w.marketStatus := by
  unfold applyVolChange; split <;> rfl

theorem applyVolChange_marketBreadth (d : DashPayload) (w : DashWidgets) :
    (applyVolChange d w).marketBreadth = w.marketBreadth := by
  unfold applyVolChange; split <;> rfl

theorem applyVolChange_volatilityValue (d : DashPayload) (w : DashWidgets) :
    (applyVolChange d w).volatilityValue = w.volatilityValue := by
  unfold applyVolChange; split <;> rfl

theorem applyVolChange_alertsValue (d : DashPayload) (w : DashWidgets) :
    (applyVolChange d w).alertsValue = w.alertsValue := by
  unfold applyVolChange; split <;> rfl

theorem applyVolChange_alertsDetails (d : DashPayload) (w : DashWidgets) :
    (applyVolChange d w).alertsDetails = w.alertsDetails := by
  unfold applyVolChange; split <;> rfl

theorem applyVolChange_sessionValue (d : DashPayload) (w : DashWidgets) :
    (applyVolChange d w).sessionValue = w.sessionValue := by
  unfold applyVolChange; split <;> rfl

theorem applyVolChange_sessionDetails (d : DashPayload) (w : DashWidgets) :
    (applyVolChange d w).sessionDetails = w.sessionDetails := by
  unfold applyVolChange; split <;> rfl

theorem applyAlerts_marketStatus (d : DashPayload) (w : DashWidgets) :
    (applyAlerts d w).marketStatus = w.marketStatus := by
  unfold applyAlerts; split <;> rfl

theorem applyAlerts_marketBreadth (d : DashPayload) (w : DashWidgets) :
    (applyAlerts d w).marketBreadth = w.marketBreadth := by
  unfold applyAlerts; split <;> rfl

theorem applyAlerts_volatilityValue (d : DashPayload) (w : DashWidgets) :
    (applyAlerts d w).volatilityValue = w.volatilityValue := by
  unfold applyAlerts; split <;> rfl

theorem applyAlerts_volatilityChange (d : DashPayload) (w : DashWidgets) :
    (applyAlerts d w).volatilityChange = w.volatilityChange := by
  unfold applyAlerts; split <;> rfl

theorem applyAlerts_sessionValue (d : DashPayload) (w : DashWidgets) :
    (applyAlerts d w).sessionValue = w.sessionValue := by
  unfold applyAlerts; split <;> rfl

theorem applyAlerts_sessionDetails (d : DashPayload) (w : DashWidgets) :
    (applyAlerts d w).sessionDetails = w.sessionDetails := by
  unfold applyAlerts; split <;> rfl

theorem applySession_marketStatus (d : DashPayload) (w : DashWidgets) :
    (applySession d w).marketStatus = w.marketStatus := by
  unfold applySession; split <;> first | rfl | (split <;> rfl)

theorem applySession_marketBreadth (d : DashPayload) (w : DashWidgets) :
    (applySession d w).marketBreadth = w.marketBreadth := by
  unfold applySession; split <;> first | rfl | (split <;> rfl)

theorem applySession_volatilityValue (d : DashPayload) (w : DashWidgets) :
    (applySession d w).volatilityValue = w.volatilityValue := by
  unfold applySession; split <;> first | rfl | (split <;> rfl)

theorem applySession_volatilityChange (d : DashPayload) (w : DashWidgets) :
    (applySession d w).volatilityChange = w.volatilityChange := by
  unfold applySession; split <;> first | rfl | (split <;> rfl)

theorem applySession_alertsValue (d : DashPayload) (w : DashWidgets) :
    (applySession d w).alertsValue = w.alertsValue := by
  unfold applySession; split <;> first | rfl | (split <;> rfl)

theorem applySession_alertsDetails (d : DashPayload) (w : DashWidgets) :
    (applySession d w).alertsDetails = w.alertsDetails := by
  unfold applySession; split <;> first | rfl | (split <;> rfl)

/-- C6 counterexample: under the legacy inline template handler (cited by
the claim alongside the copilot one), a frame containing only
`volatility_index` does not leave the other widgets untouched — every widget
is written unconditionally, so the market-status widget is overwritten with
the text `undefined` instead of keeping its prior content. -/
theorem legacy_partial_frame_cex :
    (legacyOnMessage volOnlyPayload legacyPrior).marketStatus = "undefined"
    ∧ legacyPrior.marketStatus = "Bullish"
    ∧ (legacyOnMessage volOnlyPayload legacyPrior).marketStatus ≠ legacyPrior.marketStatus :=
  ⟨rfl, rfl, by decide⟩

/-- C6 as amended: in the copilot dash socket `updateDashboard`, every
widget whose field is absent from the payload keeps its prior content, and a
frame containing only `volatility_index = 18.4` updates exactly the
volatility value widget (to the text `18.40`) and nothing else; the legacy
inline template handler cited alongside it does not have this property — it
writes every widget unconditionally (see the counterexample). -/
theorem snapshot_partial_update :
    (∀ (d : DashPayload) (w : DashWidgets),
      (d.market_status = none → (updateDashboard d w).marketStatus = w.marketStatus)
      ∧ (d.breadth_pct = none → (updateDashboard d w).marketBreadth = w.marketBreadth)
      ∧ (d.volatility_index = none → (updateDashboard d w).volatilityValue = w.volatilityValue)
      ∧ (d.volatility_change = none →
          (updateDashboard d w).volatilityChange = w.volatilityChange)
      ∧ (d.technical_breadth = none →
          (updateDashboard d w).alertsValue = w.alertsValue
          ∧ (updateDashboard d w).alertsDetails = w.alertsDetails)
      ∧ (d.session_activity = none →
          (updateDashboard d w).sessionValue = w.sessionValue
          ∧ (updateDashboard d w).sessionDetails = w.sessionDetails))
    ∧ (∀ w : DashWidgets,
        updateDashboard volOnlyPayload w =
          { w with volatilityValue := toFixedStr 2 (mkRat 184 10) })
    ∧ toFixedStr 2 (mkRat 184 10) = "18.40" := by
  refine ⟨?_, fun w => rfl, by decide⟩
  intro d w
  refine ⟨?_, ?_, ?_, ?_, ?_, ?_⟩ <;> intro h
  · simp only [updateDashboard, applySession_marketStatus, applyAlerts_marketStatus,
      applyVolChange_marketStatus, applyVolIndex_marketStatus, applyBreadth_marketStatus,
      applyMarketStatus, h]
  · simp only [updateDashboard, applySession_marketBreadth, applyAlerts_marketBreadth,
      applyVolChange_marketBreadth, applyVolIndex_marketBreadth, applyBreadth, h,
      applyMarketStatus_marketBreadth]
  · simp only [updateDashboard, applySession_volatilityValue, applyAlerts_volatilityValue,
      applyVolChange_volatilityValue, applyVolIndex, h, applyBreadth_volatilityValue,
      applyMarketStatus_volatilityValue]
  · simp only [updateDashboard, applySession_volatilityChange, applyAlerts_volatilityChange,
      applyVolChange, h, applyVolIndex_volatilityChange, applyBreadth_volatilityChange,
      applyMarketStatus_volatilityChange]
  · constructor
    · simp only [updateDashboard, applySession_alertsValue, applyAlerts, h,
        applyVolChange_alertsValue, applyVolIndex_alertsValue, applyBreadth_alertsValue,
        applyMarketStatus_alertsValue]
    · simp only [updateDashboard, applySession_alertsDetails, applyAlerts, h,
        applyVolChange_alertsDetails, applyVolIndex_alertsDetails, applyBreadth_alertsDetails,
        applyMarketStatus_alertsDetails]
  · constructor
    · simp only [updateDashboard, applySession, h, applyAlerts_sessionValue,
        applyVolChange_sessionValue, applyVolIndex_sessionValue, applyBreadth_sessionValue,
        applyMarketStatus_sessionValue]
    · simp only [updateDashboard, applySession, h, applyAlerts_sessionDetails,
        applyVolChange_sessionDetails, applyVolIndex_sessionDetails, applyBreadth_sessionDetails,
        applyMarketStatus_sessionDetails]

/-- Witness for C6 as amended: the all-absent frame leaves every widget
unchanged, and the volatility-only frame updates exactly the volatility
value. -/
theorem snapshot_partial_update_witness :
    (updateDashboard emptyPayload dashPrior).marketStatus = dashPrior.marketStatus
    ∧ (updateDashboard emptyPayload dashPrior).marketBreadth = dashPrior.marketBreadth
    ∧ (updateDashboard emptyPayload dashPrior).volatilityValue = dashPrior.volatilityValue
    ∧ (updateDashboard emptyPayload dashPrior).volatilityChange = dashPrior.volatilityChange
    ∧ (updateDashboard emptyPayload dashPrior).alertsValue = dashPrior.alertsValue
    ∧ (updateDashboard emptyPayload dashPrior).alertsDetails = dashPrior.alertsDetails
    ∧ (updateDashboard emptyPayload dashPrior).sessionValue = dashPrior.sessionValue
    ∧ (updateDashboard emptyPayload dashPrior).sessionDetails = dashPrior.sessionDetails
    ∧ updateDashboard volOnlyPayload dashPrior =
        { dashPrior with volatilityValue := toFixedStr 2 (mkRat 184 10) } := by
  have h := snapshot_partial_update.1 emptyPayload dashPrior
  exact ⟨h.1 rfl, h.2.1 rfl, h.2.2.1 rfl, h.2.2.2.1 rfl,
    (h.2.2.2.2.1 rfl).1, (h.2.2.2.2.1 rfl).2,
    (h.2.2.2.2.2 rfl).1, (h.2.2.2.2.2 rfl).2,
    snapshot_partial_update.2.1 dashPrior⟩
